import Mathlib

/-!
Verification of the astro-calculations sidereal chart pipeline.

The development shallowly embeds the arithmetic of astro_logic.py and the
request handling of main.py over the real numbers: Python floats become
real numbers, the float modulo operator becomes pymod, math.atan2 becomes
the atan2 function below, and the two external collaborators (the skyfield
timescale/ephemeris and the jyotishganit library) become oracle parameters,
as the specification treats them as black boxes.
-/

noncomputable section

namespace Astro

open Real

/-- Python float modulo x % m.  For a positive modulus m Python returns
the representative of x in the interval from 0 (inclusive) to m
(exclusive), which over the reals is x - m * floor (x / m). -/
def pymod (x m : ℝ) : ℝ := x - m * ⌊x / m⌋

/-- The helper _limit360 of astro_logic.py: x % 360.0. -/
def limit360 (x : ℝ) : ℝ := pymod x 360

/-- math.radians: degrees to radians. -/
def radians (d : ℝ) : ℝ := d * π / 180

/-- math.degrees: radians to degrees. -/
def degrees (r : ℝ) : ℝ := r * 180 / π

/-- math.atan2 y x: the angle of the point (x, y), in the interval from
-pi (exclusive, over the reals) to pi (inclusive).  The branches mirror
the C/IEEE convention Python follows; signed zeros do not exist over the
reals, so atan2 0 0 = 0 is the only zero-zero case. -/
def atan2 (y x : ℝ) : ℝ :=
  if 0 < x then arctan (y / x)
  else if x < 0 then
    (if 0 ≤ y then arctan (y / x) + π else arctan (y / x) - π)
  else if 0 < y then π / 2
  else if y < 0 then -(π / 2)
  else 0

/-- pymod written through the fractional-part function. -/
theorem pymod_eq_fract (x m : ℝ) (hm : m ≠ 0) :
    pymod x m = m * Int.fract (x / m) := by
  unfold pymod Int.fract
  field_simp

theorem pymod_nonneg (x m : ℝ) (hm : 0 < m) : 0 ≤ pymod x m := by
  rw [pymod_eq_fract x m hm.ne']
  exact mul_nonneg hm.le (Int.fract_nonneg _)

theorem pymod_lt (x m : ℝ) (hm : 0 < m) : pymod x m < m := by
  rw [pymod_eq_fract x m hm.ne']
  calc m * Int.fract (x / m) < m * 1 :=
        (mul_lt_mul_left hm).mpr (Int.fract_lt_one _)
    _ = m := mul_one m

theorem pymod_eq_self (x m : ℝ) (hm : 0 < m) (h0 : 0 ≤ x) (h1 : x < m) :
    pymod x m = x := by
  rw [pymod_eq_fract x m hm.ne']
  rw [Int.fract_eq_self.mpr ⟨by positivity, by rw [div_lt_one hm] at *; exact h1⟩]
  field_simp

theorem pymod_add_int_mul (x m : ℝ) (hm : m ≠ 0) (k : ℤ) :
    pymod (x + m * k) m = pymod x m := by
  rw [pymod_eq_fract _ _ hm, pymod_eq_fract _ _ hm]
  have : (x + m * k) / m = x / m + k := by field_simp; ring
  rw [this, Int.fract_add_int]

/-- Two reals congruent modulo m have the same pymod. -/
theorem pymod_congr {x y m : ℝ} (hm : m ≠ 0) (k : ℤ) (h : x - y = m * k) :
    pymod x m = pymod y m := by
  have hx : x = y + m * k := by linarith
  rw [hx, pymod_add_int_mul y m hm k]

theorem pymod_pymod (x m : ℝ) (hm : 0 < m) :
    pymod (pymod x m) m = pymod x m :=
  pymod_eq_self _ _ hm (pymod_nonneg x m hm) (pymod_lt x m hm)

/-- pymod x m is congruent to x modulo m, witnessed by the floor. -/
theorem pymod_sub_self (x m : ℝ) : pymod x m - x = m * (-⌊x / m⌋) := by
  unfold pymod; ring

theorem limit360_nonneg (x : ℝ) : 0 ≤ limit360 x :=
  pymod_nonneg x 360 (by norm_num)

theorem limit360_lt (x : ℝ) : limit360 x < 360 :=
  pymod_lt x 360 (by norm_num)

theorem limit360_eq_self {x : ℝ} (h0 : 0 ≤ x) (h1 : x < 360) :
    limit360 x = x :=
  pymod_eq_self x 360 (by norm_num) h0 h1

theorem limit360_congr {x y : ℝ} (k : ℤ) (h : x - y = 360 * k) :
    limit360 x = limit360 y :=
  pymod_congr (by norm_num) k h

/-- The civil UTC datetime returned by time_obj.utc_datetime() in
calculate_lahiri_ayanamsa, reduced to the two quantities the source reads
from it: the calendar year dt.year and the elapsed seconds
(dt - dt.replace(month=1, day=1, hour=0, minute=0, second=0,
microsecond=0)).total_seconds() since the start of that year. -/
structure UTCDatetime where
  year : ℤ
  secondsIntoYear : ℝ

/-- A skyfield time object, reduced to the three attributes the source
reads: the UT1 Julian day (time_obj.ut1), the TT Julian day (time_obj.tt)
and the optional civil UTC datetime (time_obj.utc_datetime(), none when
that call raises and the except branch fires). -/
structure Time where
  ut1 : ℝ
  tt : ℝ
  utc : Option UTCDatetime

/-- gmst_in_degrees from astro_logic.py: the Meeus GMST polynomial in the
UT1 Julian day, taken modulo 360. -/
def gmst_in_degrees (t : Time) : ℝ :=
  let jd_ut1 := t.ut1
  let T_ut1 := (jd_ut1 - 2451545.0) / 36525.0
  pymod
    (280.46061837
      + 360.98564736629 * (jd_ut1 - 2451545.0)
      + 0.000387933 * T_ut1 ^ 2
      - T_ut1 ^ 3 / 38710000.0) 360

/-- The four values returned by local_sidereal_time_degrees. -/
structure LSTResult where
  lst_deg : ℝ
  gmst_deg : ℝ
  gmst_hours : ℝ
  lst_hours : ℝ

/-- local_sidereal_time_degrees from astro_logic.py: GMST to hours, add
the east longitude in hours, wrap modulo 24 hours, back to degrees. -/
def local_sidereal_time_degrees (t : Time) (longitude_east_deg : ℝ) :
    LSTResult :=
  let gmst_deg := gmst_in_degrees t
  let gmst_hours := gmst_deg / 15.0
  let longitude_hours := longitude_east_deg / 15.0
  let lst_hours := pymod (gmst_hours + longitude_hours) 24.0
  let lst_deg := lst_hours * 15.0
  { lst_deg := lst_deg, gmst_deg := gmst_deg,
    gmst_hours := gmst_hours, lst_hours := lst_hours }

/-- The year_decimal local value of calculate_lahiri_ayanamsa: from the
civil datetime when available (year plus day-of-year over 365.2425), else
from the TT Julian day. -/
def yearDecimal (t : Time) : ℝ :=
  match t.utc with
  | some dt => (dt.year : ℝ) + (dt.secondsIntoYear / 86400.0) / 365.2425
  | none => 2000.0 + ((t.tt - 2451545.0) / 36525.0) * 100.0

/-- The delta_psi_deg nutation value of calculate_lahiri_ayanamsa: the
four-harmonic nutation-in-longitude approximation, in degrees. -/
def deltaPsiDeg (t : Time) : ℝ :=
  let T_j2000 := (t.tt - 2451545.0) / 36525.0
  let L_sun := pymod (280.4665 + 36000.7698 * T_j2000) 360
  let L_moon := pymod (218.3165 + 481267.8813 * T_j2000) 360
  let omega := pymod
    (125.04452 - 1934.136261 * T_j2000 + 0.0020708 * T_j2000 ^ 2) 360
  let Ls := radians L_sun
  let Lm := radians L_moon
  let om := radians omega
  let delta_psi_arcsec :=
    -17.20 * sin om - 1.32 * sin (2 * Ls)
      - 0.23 * sin (2 * Lm) + 0.21 * sin (2 * om)
  delta_psi_arcsec / 3600.0

/-- calculate_lahiri_ayanamsa from astro_logic.py.  The Python defaults
are epoch_year = 285.0, rate_arcsec_per_year = 50.23885,
add_nutation = True; Lean has them passed positionally. -/
def calculate_lahiri_ayanamsa (t : Time) (epoch_year : ℝ)
    (rate_arcsec_per_year : ℝ) (add_nutation : Bool) : ℝ :=
  let year_decimal := yearDecimal t
  let years_since := year_decimal - epoch_year
  let ayan_arcsec := years_since * rate_arcsec_per_year
  let mean_ayan_deg := ayan_arcsec / 3600.0
  let delta_psi_deg := if add_nutation then deltaPsiDeg t else 0.0
  limit360 (mean_ayan_deg + delta_psi_deg)

/-- The zodiac sign table of get_zodiac_sign. -/
def zodiacSigns : List String :=
  ["Aries", "Taurus", "Gemini", "Cancer",
   "Leo", "Virgo", "Libra", "Scorpio",
   "Sagittarius", "Capricorn", "Aquarius", "Pisces"]

/-- get_zodiac_sign from astro_logic.py: signs[int((deg % 360.0) // 30.0)].
The index is always within 0..11, so the getD default is never read. -/
def get_zodiac_sign (deg : ℝ) : String :=
  zodiacSigns.getD (⌊pymod deg 360 / 30.0⌋).toNat ""

/-- Python round(x, n) modelled as rounding half away from zero on the
10 ^ (-n) grid (Python uses round-half-even on floats; the two agree off
the half-way grid points, which are measure-zero artifacts of the float
embedding). -/
def pyround (x : ℝ) (n : ℕ) : ℝ := (⌊x * 10 ^ n + 1 / 2⌋ : ℝ) / 10 ^ n

/-- The ecliptic-longitude oracle of the skyfield ephemeris: the degrees
value of earth.at(t).observe(body).ecliptic_latlon() for the body stored
under the given ephemeris key.  The provider is a black-box collaborator
of the specification, so it is a parameter of the planetary adapter. -/
structure Ephemeris where
  eclipticLongitudeDeg : String → Time → ℝ

/-- One entry of the list built by get_planetary_positions_sidereal.  The
source builds Python dicts; the optional fields record keys present only
on some entries (the seven observed planets carry deg_in_sign and dms,
the node entries do not).  No entry ever carries a house key; the house
field records that absence. -/
structure PlanetEntry where
  graha : String
  tropical_deg : ℝ
  sidereal_deg : ℝ
  sign : String
  deg_in_sign : Option ℝ
  dms : Option (ℤ × ℤ × ℝ)
  house : Option ℕ

/-- The loop body of get_planetary_positions_sidereal for one observed
graha: tropical longitude from the ephemeris modulo 360, sidereal by
subtracting the ayanamsa, sign lookup, and the degree-minute-second
display values (Python int() truncates; the values are nonnegative so it
equals the floor). -/
def grahaEntry (eph : Ephemeris) (t : Time) (ayanamsa_deg : ℝ)
    (name key : String) : PlanetEntry :=
  let trop := pymod (eph.eclipticLongitudeDeg key t) 360
  let sid := limit360 (trop - ayanamsa_deg)
  let deg_in_sign := pymod sid 30.0
  let d : ℤ := ⌊deg_in_sign⌋
  let m : ℤ := ⌊(deg_in_sign - d) * 60.0⌋
  let s := pyround (((deg_in_sign - d) * 60.0 - m) * 60.0) 2
  { graha := name,
    tropical_deg := pyround trop 6,
    sidereal_deg := pyround sid 6,
    sign := get_zodiac_sign sid,
    deg_in_sign := some (pyround deg_in_sign 6),
    dms := some (d, m, s),
    house := none }

/-- The omega / rahu_trop local value of get_planetary_positions_sidereal:
the mean lunar ascending node polynomial in TT centuries, modulo 360. -/
def rahu_trop (t : Time) : ℝ :=
  let T := (t.tt - 2451545.0) / 36525.0
  pymod (125.04452 - 1934.136261 * T + 0.0020708 * T ^ 2) 360

/-- The rahu_sid local value: the sidereal longitude of Rahu. -/
def rahu_sid (t : Time) (ayanamsa_deg : ℝ) : ℝ :=
  limit360 (rahu_trop t - ayanamsa_deg)

/-- The ketu_sid local value: the sidereal longitude of Ketu. -/
def ketu_sid (t : Time) (ayanamsa_deg : ℝ) : ℝ :=
  limit360 (rahu_sid t ayanamsa_deg + 180.0)

/-- get_planetary_positions_sidereal from astro_logic.py: the seven
observed grahas in the insertion order of the grahas dict, then the
derived mean-node entries for Rahu and Ketu. -/
def get_planetary_positions_sidereal (eph : Ephemeris) (t : Time)
    (ayanamsa_deg : ℝ) : List PlanetEntry :=
  [grahaEntry eph t ayanamsa_deg "Sun" "sun",
   grahaEntry eph t ayanamsa_deg "Moon" "moon",
   grahaEntry eph t ayanamsa_deg "Mars" "mars",
   grahaEntry eph t ayanamsa_deg "Mercury" "mercury",
   grahaEntry eph t ayanamsa_deg "Jupiter" "jupiter barycenter",
   grahaEntry eph t ayanamsa_deg "Venus" "venus",
   grahaEntry eph t ayanamsa_deg "Saturn" "saturn barycenter",
   { graha := "Rahu",
     tropical_deg := pyround (rahu_trop t) 6,
     sidereal_deg := pyround (rahu_sid t ayanamsa_deg) 6,
     sign := get_zodiac_sign (rahu_sid t ayanamsa_deg),
     deg_in_sign := none, dms := none, house := none },
   { graha := "Ketu",
     tropical_deg := pyround (limit360 (rahu_trop t + 180.0)) 6,
     sidereal_deg := pyround (ketu_sid t ayanamsa_deg) 6,
     sign := get_zodiac_sign (ketu_sid t ayanamsa_deg),
     deg_in_sign := none, dms := none, house := none }]

/-- ascendant_tropical_from_lst_deg from astro_logic.py. -/
def ascendant_tropical_from_lst_deg (lst_deg lat_deg eps_deg : ℝ) : ℝ :=
  let ramc := radians lst_deg
  let e := radians eps_deg
  let l := radians lat_deg
  let asc := atan2 (cos ramc) (-(sin ramc * cos e + tan l * sin e))
  limit360 (degrees asc)

/-- mc_tropical_from_lst_deg from astro_logic.py. -/
def mc_tropical_from_lst_deg (lst_deg eps_deg : ℝ) : ℝ :=
  let ramc_rad := radians lst_deg
  let eps_rad := radians eps_deg
  let mc_rad := atan2 (sin ramc_rad * cos eps_rad) (cos ramc_rad)
  limit360 (degrees mc_rad)

/-- The dict returned by calculate_lagna_and_primaries. -/
structure Primaries where
  asc_tropical_deg : ℝ
  asc_sidereal_deg : ℝ
  mc_tropical_deg : ℝ
  desc_tropical_deg : ℝ
  ic_tropical_deg : ℝ
  lst_deg : ℝ
  lst_hours : ℝ
  gmst_deg : ℝ
  gmst_hours : ℝ
  eps_deg : ℝ

/-- calculate_lagna_and_primaries from astro_logic.py: LST from time and
longitude, TT-based mean obliquity, the tropical ascendant and midheaven,
and the opposite points descendant and imum coeli. -/
def calculate_lagna_and_primaries (t : Time)
    (latitude longitude_east_deg ayanamsa_deg : ℝ) : Primaries :=
  let r := local_sidereal_time_degrees t longitude_east_deg
  let T_tt := (t.tt - 2451545.0) / 36525.0
  let eps_deg := 23.439291111 - 0.0130041666667 * T_tt
    - 0.0000001639 * T_tt ^ 2 + 0.0000005036 * T_tt ^ 3
  let asc_trop := ascendant_tropical_from_lst_deg r.lst_deg latitude eps_deg
  let asc_sid := limit360 (asc_trop - ayanamsa_deg)
  let mc_trop := mc_tropical_from_lst_deg r.lst_deg eps_deg
  let desc_trop := pymod (asc_trop + 180.0) 360
  let ic_trop := pymod (mc_trop + 180.0) 360
  { asc_tropical_deg := asc_trop,
    asc_sidereal_deg := asc_sid,
    mc_tropical_deg := mc_trop,
    desc_tropical_deg := desc_trop,
    ic_tropical_deg := ic_trop,
    lst_deg := r.lst_deg,
    lst_hours := r.lst_hours,
    gmst_deg := r.gmst_deg,
    gmst_hours := r.gmst_hours,
    eps_deg := eps_deg }

/-- The dict returned by calculate_sripati_house_cusps. -/
structure SripatiResult where
  cusps_sid : List ℝ
  primaries : Primaries

/-- calculate_sripati_house_cusps from astro_logic.py: the cardinal cusps
at list indices 0, 3, 6, 9, the intermediate cusps by trisecting each
quadrant arc in zodiacal order, and the common sidereal shift at the end.
The source fills a 12-slot array by index; the list literal below writes
the same twelve values in index order. -/
def calculate_sripati_house_cusps (t : Time)
    (latitude longitude_east_deg ayanamsa_deg : ℝ) : SripatiResult :=
  let prim := calculate_lagna_and_primaries t latitude longitude_east_deg
    ayanamsa_deg
  let asc_trop := prim.asc_tropical_deg
  let mc_trop := prim.mc_tropical_deg
  let desc_trop := prim.desc_tropical_deg
  let ic_trop := prim.ic_tropical_deg
  let arc1_4 := pymod (ic_trop - asc_trop + 360) 360
  let arc4_7 := pymod (desc_trop - ic_trop + 360) 360
  let arc7_10 := pymod (mc_trop - desc_trop + 360) 360
  let arc10_1 := pymod (asc_trop - mc_trop + 360) 360
  let cusps_trop : List ℝ :=
    [asc_trop,
     limit360 (asc_trop + arc1_4 / 3.0),
     limit360 (asc_trop + 2 * arc1_4 / 3.0),
     ic_trop,
     limit360 (ic_trop + arc4_7 / 3.0),
     limit360 (ic_trop + 2 * arc4_7 / 3.0),
     desc_trop,
     limit360 (desc_trop + arc7_10 / 3.0),
     limit360 (desc_trop + 2 * arc7_10 / 3.0),
     mc_trop,
     limit360 (mc_trop + arc10_1 / 3.0),
     limit360 (mc_trop + 2 * arc10_1 / 3.0)]
  { cusps_sid := cusps_trop.map (fun c => limit360 (c - ayanamsa_deg)),
    primaries := prim }

/-- The sum of the twelve consecutive forward arcs of a cusp list: arc i
runs from cusp i to cusp (i + 1) mod 12, measured as a forward arc. -/
def sumForwardArcs (cusps : List ℝ) : ℝ :=
  ((List.range 12).map
    (fun i => pymod (cusps.getD ((i + 1) % 12) 0 - cusps.getD i 0) 360)).sum

/-! Model of main.py.  Civil instants sit on the Julian-day axis: a
datetime value is its wall-clock reading expressed as a Julian day
number, together with its tzinfo, modelled as an optional UTC offset in
hours (none for a naive datetime).  datetime comparison and astimezone
arithmetic then become real arithmetic on Julian days. -/

/-- The BirthInput request body of main.py. -/
structure BirthInput where
  name : String
  birthplace : String
  wallJD : ℝ
  tzOffsetHours : Option ℝ
  latitude : ℝ
  longitude : ℝ

/-- The IST constant of main.py: timezone(timedelta(hours=5, minutes=30)),
as an offset in hours. -/
def IST_offset_hours : ℝ := 5.5

/-- datetime(1899, 7, 29, tzinfo=timezone.utc), the min_date of the
de421.bsp range check, as a Julian day. -/
def min_date : ℝ := 2414864.5

/-- datetime(2053, 10, 9, tzinfo=timezone.utc), the max_date of the
de421.bsp range check, as a Julian day. -/
def max_date : ℝ := 2471184.5

/-- The dt_check value of get_vedic_chart: the request datetime made
absolute, assuming IST when naive, and converted to UTC. -/
def dt_check (d : BirthInput) : ℝ :=
  match d.tzOffsetHours with
  | none => d.wallJD - IST_offset_hours / 24
  | some o => d.wallJD - o / 24

/-- A raised fastapi HTTPException, reduced to the values main.py
interpolates into its detail string: for the date-range rejection the
detail states both supported bounds and the offending UTC date. -/
structure HTTPError where
  status_code : ℕ
  bounds_min : Option ℝ
  bounds_max : Option ℝ
  provided : Option ℝ

/-- The timescale oracle: ts.from_datetime, mapping an absolute UTC
instant (as a Julian day) to a skyfield time object.  Like the ephemeris
it is an external collaborator and therefore a parameter. -/
structure Timescale where
  from_utc : ℝ → Time

/-- One entry of the houses_sidereal list in the V1 response. -/
structure HouseEntry where
  house : ℕ
  cusp_deg : ℝ
  sign : String

/-- The V1 /vedic-chart response, reduced to the computed fields (the
debug sub-dict repeats values of Primaries and is omitted). -/
structure ChartResponse where
  name : String
  birthplace : String
  assumed_tz_handling : String
  birth_datetime_used_utc : ℝ
  ayanamsa_deg : ℝ
  lagna_sidereal_deg : ℝ
  lagna_sign : String
  moon_sign : Option String
  houses_sidereal : List HouseEntry
  planets_sidereal : List PlanetEntry

/-- The response dict built by the non-error path of get_vedic_chart
(main.py lines after the date-range check): the naive-datetime IST
assumption, the UTC moment handed to the timescale, and the computation
pipeline.  Named separately so the successful payload of the endpoint is
a function of the same inputs. -/
def v1Response (ts : Timescale) (eph : Ephemeris) (data : BirthInput) :
    ChartResponse :=
  let assumed_tz := match data.tzOffsetHours with
    | none => "assumed_IST"
    | some _ => "from_input"
  let dt_utc := dt_check data
  let t := ts.from_utc dt_utc
  let ayan := calculate_lahiri_ayanamsa t 285.0 50.23885 true
  let lagna_info := calculate_lagna_and_primaries t data.latitude
    data.longitude ayan
  let lagna_sid := lagna_info.asc_sidereal_deg
  let houses_data := calculate_sripati_house_cusps t data.latitude
    data.longitude ayan
  let cusps := houses_data.cusps_sid
  let planets := get_planetary_positions_sidereal eph t ayan
  let moon := planets.find? (fun p => p.graha = "Moon")
  { name := data.name,
    birthplace := data.birthplace,
    assumed_tz_handling := assumed_tz,
    birth_datetime_used_utc := dt_utc,
    ayanamsa_deg := pyround ayan 9,
    lagna_sidereal_deg := pyround lagna_sid 6,
    lagna_sign := get_zodiac_sign lagna_sid,
    moon_sign := moon.map (fun p => p.sign),
    houses_sidereal := (cusps.enum.map (fun ic =>
      { house := ic.1 + 1, cusp_deg := pyround ic.2 6,
        sign := get_zodiac_sign ic.2 })),
    planets_sidereal := planets }

/-- get_vedic_chart from main.py (the V1 endpoint): the de421 date-range
check first (rejecting with a 400 whose detail carries both bounds and
the offending date), then the response pipeline.  The embedded pipeline
is total, so the generic except branches of the source are unreachable
in the model. -/
def get_vedic_chart (ts : Timescale) (eph : Ephemeris) (data : BirthInput) :
    Except HTTPError ChartResponse :=
  let dtc := dt_check data
  if dtc < min_date ∨ max_date < dtc then
    .error { status_code := 400, bounds_min := some min_date,
             bounds_max := some max_date, provided := some dtc }
  else
    .ok (v1Response ts eph data)

/-- The timezone_handling sub-dict of the V2 response, reduced to the
values its strings interpolate: whether the IST assumption fired, and the
offset in hours actually used. -/
structure V2TzHandling where
  status_assumed_ist : Bool
  offset_used_hours : ℝ
  localized_wallJD : ℝ
  naive_wallJD_passed_to_lib : ℝ

/-- The V2 /v2/vedic-chart response. -/
structure V2Response (α : Type) where
  timezone_handling : V2TzHandling
  chart_results : α

/-- get_vedic_chart_v2 from main.py: resolve the timezone offset (5.5 for
a naive input, the own offset otherwise), strip the tzinfo, and hand the
naive local wall time plus the float offset to the jyotishganit library,
which is an external collaborator modelled as an oracle returning an
opaque chart payload. -/
def get_vedic_chart_v2 {α : Type} (lib : ℝ → ℝ → ℝ → ℝ → α)
    (data : BirthInput) : V2Response α :=
  let timezone_offset := match data.tzOffsetHours with
    | none => 5.5
    | some o => o
  let dt_local_naive := data.wallJD
  { timezone_handling :=
      { status_assumed_ist := data.tzOffsetHours.isNone,
        offset_used_hours := timezone_offset,
        localized_wallJD := data.wallJD,
        naive_wallJD_passed_to_lib := dt_local_naive },
    chart_results :=
      lib dt_local_naive data.latitude data.longitude timezone_offset }

/-! Concrete oracles and instants for closed evaluations. -/

/-- A deterministic stub timescale: the UT1 and TT Julian days of the
returned time object both equal the UTC Julian day handed in, and no
civil datetime is attached. -/
def trivialTimescale : Timescale := ⟨fun jd => ⟨jd, jd, none⟩⟩

/-- A deterministic stub ephemeris: every body sits at ecliptic
longitude 0. -/
def trivialEphemeris : Ephemeris := ⟨fun _ _ => 0⟩

/-- The J2000.0 epoch as a time object with both Julian days at
2451545.0 and no civil datetime. -/
def t2000 : Time := ⟨2451545.0, 2451545.0, none⟩

/-- C3: for every instant, gmst_in_degrees returns exactly the Meeus
polynomial 280.46061837 + 360.98564736629 (JD - 2451545) +
0.000387933 T^2 - T^3 / 38710000 with T = (JD - 2451545) / 36525,
normalized into the interval from 0 inclusive to 360 exclusive. -/
theorem gmst_polynomial_normalized (t : Time) :
    gmst_in_degrees t =
      pymod (280.46061837
        + 360.98564736629 * (t.ut1 - 2451545.0)
        + 0.000387933 * ((t.ut1 - 2451545.0) / 36525.0) ^ 2
        - ((t.ut1 - 2451545.0) / 36525.0) ^ 3 / 38710000.0) 360
    ∧ 0 ≤ gmst_in_degrees t ∧ gmst_in_degrees t < 360 :=
  ⟨rfl, pymod_nonneg _ _ (by norm_num), pymod_lt _ _ (by norm_num)⟩

/-- C9: for every instant and ayanamsa, the Ketu sidereal longitude
computed by get_planetary_positions_sidereal is normalize(Rahu sidereal
longitude + 180), with the Rahu tropical longitude given by the mean
lunar node polynomial modulo 360 and the Rahu sidereal longitude by
subtracting the ayanamsa; the ninth list entry is the Ketu entry
carrying that value (rounded to six digits for display). -/
theorem ketu_opposite_rahu (t : Time) (ayanamsa_deg : ℝ) :
    ketu_sid t ayanamsa_deg = limit360 (rahu_sid t ayanamsa_deg + 180.0)
    ∧ rahu_sid t ayanamsa_deg = limit360 (rahu_trop t - ayanamsa_deg)
    ∧ rahu_trop t =
      pymod (125.04452 - 1934.136261 * ((t.tt - 2451545.0) / 36525.0)
        + 0.0020708 * ((t.tt - 2451545.0) / 36525.0) ^ 2) 360
    ∧ ∀ eph : Ephemeris,
      ((get_planetary_positions_sidereal eph t ayanamsa_deg).getD 8
        ⟨"", 0, 0, "", none, none, none⟩).graha = "Ketu"
      ∧ ((get_planetary_positions_sidereal eph t ayanamsa_deg).getD 8
        ⟨"", 0, 0, "", none, none, none⟩).sidereal_deg =
          pyround (ketu_sid t ayanamsa_deg) 6 :=
  ⟨rfl, rfl, rfl, fun _ => ⟨rfl, rfl⟩⟩

/-- C6, evaluation of the code at the failing inputs: the source has no
polar-latitude guard and no PolarLatitudeError anywhere, so the embedded
ascendant computation is a total function; at latitude 90, -90 and
89.999 alike it returns a normalized angle instead of failing. -/
theorem ascendant_defined_at_polar_latitudes (lst_deg eps_deg : ℝ) :
    (0 ≤ ascendant_tropical_from_lst_deg lst_deg 90.0 eps_deg
      ∧ ascendant_tropical_from_lst_deg lst_deg 90.0 eps_deg < 360)
    ∧ (0 ≤ ascendant_tropical_from_lst_deg lst_deg (-90.0) eps_deg
      ∧ ascendant_tropical_from_lst_deg lst_deg (-90.0) eps_deg < 360)
    ∧ (0 ≤ ascendant_tropical_from_lst_deg lst_deg 89.999 eps_deg
      ∧ ascendant_tropical_from_lst_deg lst_deg 89.999 eps_deg < 360) :=
  ⟨⟨limit360_nonneg _, limit360_lt _⟩,
   ⟨limit360_nonneg _, limit360_lt _⟩,
   ⟨limit360_nonneg _, limit360_lt _⟩⟩

/-- C5: with its default arguments (epoch year 285.0, rate 50.23885
arcseconds per year, nutation enabled) calculate_lahiri_ayanamsa returns
normalize((yearDecimal - 285) * 50.23885 / 3600 + delta-psi), where
delta-psi is the four-harmonic nutation term in arcseconds converted to
degrees, and the result lies in the interval from 0 to 360. -/
theorem lahiri_ayanamsa_epoch_rate_formula (t : Time) :
    calculate_lahiri_ayanamsa t 285.0 50.23885 true =
      limit360 ((yearDecimal t - 285.0) * 50.23885 / 3600.0 +
        (-17.20 * sin (radians (pymod (125.04452
            - 1934.136261 * ((t.tt - 2451545.0) / 36525.0)
            + 0.0020708 * ((t.tt - 2451545.0) / 36525.0) ^ 2) 360))
          - 1.32 * sin (2 * radians (pymod (280.4665
            + 36000.7698 * ((t.tt - 2451545.0) / 36525.0)) 360))
          - 0.23 * sin (2 * radians (pymod (218.3165
            + 481267.8813 * ((t.tt - 2451545.0) / 36525.0)) 360))
          + 0.21 * sin (2 * radians (pymod (125.04452
            - 1934.136261 * ((t.tt - 2451545.0) / 36525.0)
            + 0.0020708 * ((t.tt - 2451545.0) / 36525.0) ^ 2) 360)))
        / 3600.0)
    ∧ 0 ≤ calculate_lahiri_ayanamsa t 285.0 50.23885 true
    ∧ calculate_lahiri_ayanamsa t 285.0 50.23885 true < 360 :=
  ⟨rfl, limit360_nonneg _, limit360_lt _⟩

/-- The unnormalized Meeus GMST polynomial, as a function of the UT1
Julian day (the argument of the modulo in gmst_in_degrees). -/
def gmstPoly (jd : ℝ) : ℝ :=
  280.46061837
    + 360.98564736629 * (jd - 2451545.0)
    + 0.000387933 * ((jd - 2451545.0) / 36525.0) ^ 2
    - ((jd - 2451545.0) / 36525.0) ^ 3 / 38710000.0

theorem continuous_gmstPoly : Continuous gmstPoly := by
  unfold gmstPoly
  fun_prop

/-- There is an instant whose GMST is exactly 100 degrees: the
polynomial moves from about 280.46 to about 641.45 across one day after
J2000.0, so by the intermediate value theorem it passes through 460,
whose normalization is 100. -/
theorem exists_time_gmst_100 : ∃ t : Time, gmst_in_degrees t = 100.0 := by
  have h1 : gmstPoly 2451545 = 280.46061837 := by norm_num [gmstPoly]
  have h2 : (460 : ℝ) ≤ gmstPoly 2451546 := by norm_num [gmstPoly]
  have hmem : (460 : ℝ) ∈ Set.Icc (gmstPoly 2451545) (gmstPoly 2451546) := by
    constructor
    · rw [h1]; norm_num
    · exact h2
  obtain ⟨c, _, hc⟩ := intermediate_value_Icc (by norm_num)
    continuous_gmstPoly.continuousOn hmem
  refine ⟨⟨c, c, none⟩, ?_⟩
  show pymod (gmstPoly c) 360 = 100.0
  rw [hc]
  rw [pymod_congr (by norm_num) 1 (by push_cast; norm_num : (460 : ℝ) - 100 = 360 * (1 : ℤ))]
  rw [pymod_eq_self 100 360 (by norm_num) (by norm_num) (by norm_num)]
  norm_num

/-- An instant whose GMST is exactly 100 degrees. -/
def gmst100_time : Time := Classical.choose exists_time_gmst_100

theorem gmst100_time_spec : gmst_in_degrees gmst100_time = 100.0 :=
  Classical.choose_spec exists_time_gmst_100

/-- C4: for every instant and longitude, the local sidereal time in
degrees is the hour-domain wrap of GMST, ((gmst / 15 + longitude / 15)
mod 24) * 15; in particular any instant whose GMST is 100.0 degrees
together with longitude 77.5946 east gives exactly
((100.0 / 15 + 77.5946 / 15) mod 24) * 15. -/
theorem lst_hour_domain_wrap :
    (∀ (t : Time) (lon : ℝ),
      (local_sidereal_time_degrees t lon).lst_deg =
        pymod (gmst_in_degrees t / 15.0 + lon / 15.0) 24.0 * 15.0)
    ∧ ∀ t : Time, gmst_in_degrees t = 100.0 →
      (local_sidereal_time_degrees t 77.5946).lst_deg =
        pymod (100.0 / 15.0 + 77.5946 / 15.0) 24.0 * 15.0 := by
  constructor
  · intro t lon
    rfl
  · intro t h
    show pymod (gmst_in_degrees t / 15.0 + 77.5946 / 15.0) 24.0 * 15.0 =
      pymod (100.0 / 15.0 + 77.5946 / 15.0) 24.0 * 15.0
    rw [h]

theorem lst_hour_domain_wrap_witness :
    (local_sidereal_time_degrees gmst100_time 77.5946).lst_deg =
      pymod (100.0 / 15.0 + 77.5946 / 15.0) 24.0 * 15.0 :=
  lst_hour_domain_wrap.2 gmst100_time gmst100_time_spec

/-- C1: for every instant, latitude strictly between -90 and 90,
longitude and ayanamsa, calculate_lagna_and_primaries returns the four
tropical chart angles: the ascendant is atan2(cos RAMC,
-(sin RAMC cos eps + tan lat sin eps)) normalized, the midheaven is
atan2(sin RAMC cos eps, cos RAMC) normalized, where RAMC is the degrees
LST converted to radians, the descendant is the normalized ascendant
plus 180 and the imum coeli the normalized midheaven plus 180. -/
theorem lagna_primaries_chart_angles (t : Time) (lat lon ayan : ℝ)
    (hlat1 : -90 < lat) (hlat2 : lat < 90) :
    (calculate_lagna_and_primaries t lat lon ayan).asc_tropical_deg =
      limit360 (degrees (atan2
        (cos (radians (calculate_lagna_and_primaries t lat lon ayan).lst_deg))
        (-(sin (radians (calculate_lagna_and_primaries t lat lon ayan).lst_deg)
            * cos (radians (calculate_lagna_and_primaries t lat lon ayan).eps_deg)
          + tan (radians lat)
            * sin (radians (calculate_lagna_and_primaries t lat lon ayan).eps_deg)))))
    ∧ (calculate_lagna_and_primaries t lat lon ayan).mc_tropical_deg =
      limit360 (degrees (atan2
        (sin (radians (calculate_lagna_and_primaries t lat lon ayan).lst_deg)
          * cos (radians (calculate_lagna_and_primaries t lat lon ayan).eps_deg))
        (cos (radians (calculate_lagna_and_primaries t lat lon ayan).lst_deg))))
    ∧ (calculate_lagna_and_primaries t lat lon ayan).desc_tropical_deg =
      limit360 ((calculate_lagna_and_primaries t lat lon ayan).asc_tropical_deg
        + 180.0)
    ∧ (calculate_lagna_and_primaries t lat lon ayan).ic_tropical_deg =
      limit360 ((calculate_lagna_and_primaries t lat lon ayan).mc_tropical_deg
        + 180.0) :=
  ⟨rfl, rfl, rfl, rfl⟩

theorem lagna_primaries_chart_angles_witness :
    (calculate_lagna_and_primaries t2000 0 0 0).asc_tropical_deg =
      limit360 (degrees (atan2
        (cos (radians (calculate_lagna_and_primaries t2000 0 0 0).lst_deg))
        (-(sin (radians (calculate_lagna_and_primaries t2000 0 0 0).lst_deg)
            * cos (radians (calculate_lagna_and_primaries t2000 0 0 0).eps_deg)
          + tan (radians 0)
            * sin (radians (calculate_lagna_and_primaries t2000 0 0 0).eps_deg)))))
    ∧ (calculate_lagna_and_primaries t2000 0 0 0).mc_tropical_deg =
      limit360 (degrees (atan2
        (sin (radians (calculate_lagna_and_primaries t2000 0 0 0).lst_deg)
          * cos (radians (calculate_lagna_and_primaries t2000 0 0 0).eps_deg))
        (cos (radians (calculate_lagna_and_primaries t2000 0 0 0).lst_deg))))
    ∧ (calculate_lagna_and_primaries t2000 0 0 0).desc_tropical_deg =
      limit360 ((calculate_lagna_and_primaries t2000 0 0 0).asc_tropical_deg
        + 180.0)
    ∧ (calculate_lagna_and_primaries t2000 0 0 0).ic_tropical_deg =
      limit360 ((calculate_lagna_and_primaries t2000 0 0 0).mc_tropical_deg
        + 180.0) :=
  lagna_primaries_chart_angles t2000 0 0 0 (by norm_num) (by norm_num)

/-- A request inside the supported ephemeris span: J2000.0 noon as a
naive wall-clock reading. -/
def inRangeRequest : BirthInput :=
  ⟨"Test", "Bangalore", 2451545.0, none, 13.0, 77.5946⟩

/-- A request far before the supported ephemeris span (Julian day 0). -/
def outOfRangeRequest : BirthInput :=
  ⟨"Test", "Bangalore", 0, none, 13.0, 77.5946⟩

/-- A timezone-aware request inside the span, at offset UTC-8. -/
def awareRequest : BirthInput :=
  ⟨"Test", "Seattle", 2451545.0, some (-8), 47.6, -122.3⟩

/-- C7: a chart request whose UTC instant falls outside the span from
1899-07-29 to 2053-10-09 is rejected by the V1 endpoint with a 400
(a 4xx, not a 500) whose detail carries both supported bounds and the
offending UTC date, while an instant inside the span passes the check
and reaches the computed response. -/
theorem vedic_chart_range_check (ts : Timescale) (eph : Ephemeris)
    (d : BirthInput) :
    (dt_check d < min_date ∨ max_date < dt_check d →
      ∃ e : HTTPError, get_vedic_chart ts eph d = .error e
        ∧ e.status_code = 400
        ∧ 400 ≤ e.status_code ∧ e.status_code < 500
        ∧ e.bounds_min = some min_date
        ∧ e.bounds_max = some max_date
        ∧ e.provided = some (dt_check d))
    ∧ (min_date ≤ dt_check d → dt_check d ≤ max_date →
      get_vedic_chart ts eph d = .ok (v1Response ts eph d)) := by
  constructor
  · intro h
    refine ⟨⟨400, some min_date, some max_date, some (dt_check d)⟩,
      ?_, rfl, by norm_num, by norm_num, rfl, rfl, rfl⟩
    show (if dt_check d < min_date ∨ max_date < dt_check d then _ else _) = _
    rw [if_pos h]
  · intro h1 h2
    show (if dt_check d < min_date ∨ max_date < dt_check d then _ else _) = _
    rw [if_neg]
    rw [not_or]
    exact ⟨not_lt.mpr h1, not_lt.mpr h2⟩

theorem vedic_chart_range_check_witness :
    (∃ e : HTTPError,
      get_vedic_chart trivialTimescale trivialEphemeris outOfRangeRequest =
        .error e
      ∧ e.status_code = 400
      ∧ 400 ≤ e.status_code ∧ e.status_code < 500
      ∧ e.bounds_min = some min_date
      ∧ e.bounds_max = some max_date
      ∧ e.provided = some (dt_check outOfRangeRequest))
    ∧ get_vedic_chart trivialTimescale trivialEphemeris inRangeRequest =
      .ok (v1Response trivialTimescale trivialEphemeris inRangeRequest) :=
  ⟨(vedic_chart_range_check trivialTimescale trivialEphemeris
      outOfRangeRequest).1
    (by norm_num [dt_check, outOfRangeRequest, IST_offset_hours, min_date,
      max_date]),
   (vedic_chart_range_check trivialTimescale trivialEphemeris
      inRangeRequest).2
    (by norm_num [dt_check, inRangeRequest, IST_offset_hours, min_date])
    (by norm_num [dt_check, inRangeRequest, IST_offset_hours, max_date])⟩

/-- C10: a naive birth_datetime is not rejected for being naive: both
endpoints resolve it at the fixed offset UTC+05:30 before any
computation and mark the assumption in the response (the V1
assumed_tz_handling string, the V2 timezone_handling values), while a
timezone-aware input is used with its own offset. -/
theorem naive_datetime_assumed_ist {α : Type} (ts : Timescale)
    (eph : Ephemeris) (lib : ℝ → ℝ → ℝ → ℝ → α) (d : BirthInput) :
    (d.tzOffsetHours = none →
      dt_check d = d.wallJD - 5.5 / 24
      ∧ (v1Response ts eph d).assumed_tz_handling = "assumed_IST"
      ∧ (v1Response ts eph d).birth_datetime_used_utc = d.wallJD - 5.5 / 24
      ∧ (min_date ≤ dt_check d → dt_check d ≤ max_date →
          get_vedic_chart ts eph d = .ok (v1Response ts eph d))
      ∧ (get_vedic_chart_v2 lib d).timezone_handling.status_assumed_ist = true
      ∧ (get_vedic_chart_v2 lib d).timezone_handling.offset_used_hours = 5.5
      ∧ (get_vedic_chart_v2 lib d).chart_results
          = lib d.wallJD d.latitude d.longitude 5.5)
    ∧ (∀ o : ℝ, d.tzOffsetHours = some o →
      dt_check d = d.wallJD - o / 24
      ∧ (v1Response ts eph d).assumed_tz_handling = "from_input"
      ∧ (v1Response ts eph d).birth_datetime_used_utc = d.wallJD - o / 24
      ∧ (get_vedic_chart_v2 lib d).timezone_handling.status_assumed_ist = false
      ∧ (get_vedic_chart_v2 lib d).timezone_handling.offset_used_hours = o) := by
  constructor
  · intro h
    refine ⟨?_, ?_, ?_, ?_, ?_, ?_, ?_⟩
    · simp [dt_check, h, IST_offset_hours]
    · simp [v1Response, h]
    · simp [v1Response, dt_check, h, IST_offset_hours]
    · intro h1 h2
      show (if dt_check d < min_date ∨ max_date < dt_check d
        then _ else _) = _
      rw [if_neg]
      rw [not_or]
      exact ⟨not_lt.mpr h1, not_lt.mpr h2⟩
    · simp [get_vedic_chart_v2, h]
    · simp [get_vedic_chart_v2, h]
    · simp [get_vedic_chart_v2, h]
  · intro o h
    refine ⟨?_, ?_, ?_, ?_, ?_⟩
    · simp [dt_check, h]
    · simp [v1Response, h]
    · simp [v1Response, dt_check, h]
    · simp [get_vedic_chart_v2, h]
    · simp [get_vedic_chart_v2, h]

theorem naive_datetime_assumed_ist_witness :
    (dt_check inRangeRequest = inRangeRequest.wallJD - 5.5 / 24
      ∧ (v1Response trivialTimescale trivialEphemeris
          inRangeRequest).assumed_tz_handling = "assumed_IST"
      ∧ (v1Response trivialTimescale trivialEphemeris
          inRangeRequest).birth_datetime_used_utc =
          inRangeRequest.wallJD - 5.5 / 24
      ∧ (min_date ≤ dt_check inRangeRequest →
          dt_check inRangeRequest ≤ max_date →
          get_vedic_chart trivialTimescale trivialEphemeris inRangeRequest =
            .ok (v1Response trivialTimescale trivialEphemeris inRangeRequest))
      ∧ (get_vedic_chart_v2 (fun _ _ _ _ => (0 : ℕ))
          inRangeRequest).timezone_handling.status_assumed_ist = true
      ∧ (get_vedic_chart_v2 (fun _ _ _ _ => (0 : ℕ))
          inRangeRequest).timezone_handling.offset_used_hours = 5.5
      ∧ (get_vedic_chart_v2 (fun _ _ _ _ => (0 : ℕ))
          inRangeRequest).chart_results = 0)
    ∧ (dt_check awareRequest = awareRequest.wallJD - (-8) / 24
      ∧ (v1Response trivialTimescale trivialEphemeris
          awareRequest).assumed_tz_handling = "from_input"
      ∧ (v1Response trivialTimescale trivialEphemeris
          awareRequest).birth_datetime_used_utc =
          awareRequest.wallJD - (-8) / 24
      ∧ (get_vedic_chart_v2 (fun _ _ _ _ => (0 : ℕ))
          awareRequest).timezone_handling.status_assumed_ist = false
      ∧ (get_vedic_chart_v2 (fun _ _ _ _ => (0 : ℕ))
          awareRequest).timezone_handling.offset_used_hours = -8) :=
  ⟨(naive_datetime_assumed_ist trivialTimescale trivialEphemeris
      (fun _ _ _ _ => (0 : ℕ)) inRangeRequest).1 rfl,
   (naive_datetime_assumed_ist trivialTimescale trivialEphemeris
      (fun _ _ _ _ => (0 : ℕ)) awareRequest).2 (-8) rfl⟩

/-- C8, amended: the planet list of a successful V1 response is exactly
the nine entries Sun, Moon, Mars, Mercury, Jupiter, Venus, Saturn, Rahu,
Ketu in that order, each carrying the body identifier, a sidereal
longitude and a zodiac sign, but no house assignment: no entry carries a
house value, and the response passes the list through unchanged. -/
theorem planets_nine_ordered_no_house (eph : Ephemeris) (t : Time)
    (ayanamsa_deg : ℝ) (ts : Timescale) (d : BirthInput) :
    (get_planetary_positions_sidereal eph t ayanamsa_deg).length = 9
    ∧ (get_planetary_positions_sidereal eph t ayanamsa_deg).map
        (fun e => e.graha) =
      ["Sun", "Moon", "Mars", "Mercury", "Jupiter", "Venus", "Saturn",
       "Rahu", "Ketu"]
    ∧ (get_planetary_positions_sidereal eph t ayanamsa_deg).map
        (fun e => e.house) = List.replicate 9 none
    ∧ (v1Response ts eph d).planets_sidereal =
        get_planetary_positions_sidereal eph (ts.from_utc (dt_check d))
          (calculate_lahiri_ayanamsa (ts.from_utc (dt_check d))
            285.0 50.23885 true) :=
  ⟨rfl, rfl, rfl, rfl⟩

/-- C8, counterexample to the claim as stated: at a concrete successful
request the response is produced, yet every one of its nine planet
entries carries house = none, so no entry carries a house assignment in
1..12. -/
theorem planets_house_assignment_missing :
    get_vedic_chart trivialTimescale trivialEphemeris inRangeRequest =
      .ok (v1Response trivialTimescale trivialEphemeris inRangeRequest)
    ∧ (v1Response trivialTimescale trivialEphemeris
        inRangeRequest).planets_sidereal.map (fun e => e.house) =
      List.replicate 9 none
    ∧ ((v1Response trivialTimescale trivialEphemeris
        inRangeRequest).planets_sidereal.getD 0
        ⟨"", 0, 0, "", none, none, none⟩).house = none := by
  refine ⟨?_, rfl, rfl⟩
  show (if dt_check inRangeRequest < min_date ∨
      max_date < dt_check inRangeRequest then _ else _) = _
  rw [if_neg]
  rw [not_or]
  constructor
  · norm_num [dt_check, inRangeRequest, IST_offset_hours, min_date]
  · norm_num [dt_check, inRangeRequest, IST_offset_hours, max_date]

/-! Arc arithmetic for the Sripati cusp analysis. -/

/-- Evaluation rule for pymod at modulus 360: subtract the right integer
multiple of 360 and check the representative is in range. -/
theorem pymod360_eval (x y : ℝ) (k : ℤ) (h : x - y = 360 * k)
    (h0 : 0 ≤ y) (h1 : y < 360) : pymod x 360 = y := by
  rw [pymod_congr (by norm_num) k h]
  exact pymod_eq_self _ _ (by norm_num) h0 h1

/-- The twelve forward arcs of a twelve-cusp list, written out. -/
theorem sumForwardArcs_twelve
    (c0 c1 c2 c3 c4 c5 c6 c7 c8 c9 c10 c11 : ℝ) :
    sumForwardArcs [c0, c1, c2, c3, c4, c5, c6, c7, c8, c9, c10, c11] =
      pymod (c1 - c0) 360 + pymod (c2 - c1) 360 + pymod (c3 - c2) 360
      + pymod (c4 - c3) 360 + pymod (c5 - c4) 360 + pymod (c6 - c5) 360
      + pymod (c7 - c6) 360 + pymod (c8 - c7) 360 + pymod (c9 - c8) 360
      + pymod (c10 - c9) 360 + pymod (c11 - c10) 360
      + pymod (c0 - c11) 360 := by
  simp [sumForwardArcs, List.range_succ]
  ring

/-- The common sidereal shift cancels inside a forward arc. -/
theorem arc_sid (u v a : ℝ) :
    pymod (limit360 (u - a) - limit360 (v - a)) 360 = pymod (u - v) 360 := by
  apply pymod_congr (by norm_num) (⌊(v - a) / 360⌋ - ⌊(u - a) / 360⌋)
  unfold limit360 pymod
  push_cast
  ring

/-- A leading normalization does not change a forward arc. -/
theorem arc_left (x v : ℝ) :
    pymod (limit360 x - v) 360 = pymod (x - v) 360 := by
  apply pymod_congr (by norm_num) (-⌊x / 360⌋)
  unfold limit360 pymod
  push_cast
  ring

/-- A trailing normalization does not change a forward arc. -/
theorem arc_right (u x : ℝ) :
    pymod (u - limit360 x) 360 = pymod (u - x) 360 := by
  apply pymod_congr (by norm_num) (⌊x / 360⌋)
  unfold limit360 pymod
  ring

/-- A forward arc congruent to a third of a quadrant arc equals that
third exactly. -/
theorem arc_eq_third (x w : ℝ) (hw0 : 0 ≤ w) (hw1 : w < 360) (k : ℤ)
    (hk : x - w / 3.0 = 360 * k) : pymod x 360 = w / 3.0 := by
  rw [pymod_congr (by norm_num) k hk]
  exact pymod_eq_self _ _ (by norm_num) (by linarith) (by linarith)

/-- Core computation behind the Sripati arc-sum property: for cusps
built by trisecting the four quadrant arcs between normalized cardinal
angles A (ascendant) and M (midheaven) with IC and descendant at the
opposite points, the twelve forward arcs total 360 whenever the forward
arc from A to M, (M - A + 360) mod 360 under the forward-arc convention,
is not strictly between 0 and 180 degrees. -/
theorem sripati_sum_core (A M ay : ℝ)
    (h : pymod (M - A) 360 ∉ Set.Ioo (0 : ℝ) 180) :
    sumForwardArcs
      [limit360 (A - ay),
       limit360 (limit360 (A
         + pymod (limit360 (M + 180.0) - A + 360) 360 / 3.0) - ay),
       limit360 (limit360 (A
         + 2 * pymod (limit360 (M + 180.0) - A + 360) 360 / 3.0) - ay),
       limit360 (limit360 (M + 180.0) - ay),
       limit360 (limit360 (limit360 (M + 180.0)
         + pymod (limit360 (A + 180.0) - limit360 (M + 180.0) + 360) 360
           / 3.0) - ay),
       limit360 (limit360 (limit360 (M + 180.0)
         + 2 * pymod (limit360 (A + 180.0) - limit360 (M + 180.0) + 360) 360
           / 3.0) - ay),
       limit360 (limit360 (A + 180.0) - ay),
       limit360 (limit360 (limit360 (A + 180.0)
         + pymod (M - limit360 (A + 180.0) + 360) 360 / 3.0) - ay),
       limit360 (limit360 (limit360 (A + 180.0)
         + 2 * pymod (M - limit360 (A + 180.0) + 360) 360 / 3.0) - ay),
       limit360 (M - ay),
       limit360 (limit360 (M + pymod (A - M + 360) 360 / 3.0) - ay),
       limit360 (limit360 (M + 2 * pymod (A - M + 360) 360 / 3.0) - ay)]
      = 360 := by
  have hw14_0 : 0 ≤ pymod (limit360 (M + 180.0) - A + 360) 360 :=
    pymod_nonneg _ _ (by norm_num)
  have hw14_1 : pymod (limit360 (M + 180.0) - A + 360) 360 < 360 :=
    pymod_lt _ _ (by norm_num)
  have hw47_0 :
      0 ≤ pymod (limit360 (A + 180.0) - limit360 (M + 180.0) + 360) 360 :=
    pymod_nonneg _ _ (by norm_num)
  have hw47_1 :
      pymod (limit360 (A + 180.0) - limit360 (M + 180.0) + 360) 360 < 360 :=
    pymod_lt _ _ (by norm_num)
  have hw710_0 : 0 ≤ pymod (M - limit360 (A + 180.0) + 360) 360 :=
    pymod_nonneg _ _ (by norm_num)
  have hw710_1 : pymod (M - limit360 (A + 180.0) + 360) 360 < 360 :=
    pymod_lt _ _ (by norm_num)
  have hw101_0 : 0 ≤ pymod (A - M + 360) 360 :=
    pymod_nonneg _ _ (by norm_num)
  have hw101_1 : pymod (A - M + 360) 360 < 360 :=
    pymod_lt _ _ (by norm_num)
  rw [sumForwardArcs_twelve]
  simp only [arc_sid]
  simp only [arc_left, arc_right]
  have t1 : pymod (A + pymod (limit360 (M + 180.0) - A + 360) 360 / 3.0 - A)
      360 = pymod (limit360 (M + 180.0) - A + 360) 360 / 3.0 :=
    arc_eq_third _ _ hw14_0 hw14_1 0 (by push_cast; ring)
  have t2 : pymod (A + 2 * pymod (limit360 (M + 180.0) - A + 360) 360 / 3.0
      - (A + pymod (limit360 (M + 180.0) - A + 360) 360 / 3.0)) 360 =
      pymod (limit360 (M + 180.0) - A + 360) 360 / 3.0 :=
    arc_eq_third _ _ hw14_0 hw14_1 0 (by push_cast; ring)
  have t3 : pymod (M + 180.0
      - (A + 2 * pymod (limit360 (M + 180.0) - A + 360) 360 / 3.0)) 360 =
      pymod (limit360 (M + 180.0) - A + 360) 360 / 3.0 :=
    arc_eq_third _ _ hw14_0 hw14_1
      (⌊(M + 180.0) / 360⌋ + ⌊(limit360 (M + 180.0) - A + 360) / 360⌋ - 1)
      (by unfold limit360 pymod; push_cast; ring)
  have t4 : pymod (limit360 (M + 180.0)
      + pymod (limit360 (A + 180.0) - limit360 (M + 180.0) + 360) 360 / 3.0
      - (M + 180.0)) 360 =
      pymod (limit360 (A + 180.0) - limit360 (M + 180.0) + 360) 360 / 3.0 :=
    arc_eq_third _ _ hw47_0 hw47_1 (-⌊(M + 180.0) / 360⌋)
      (by unfold limit360 pymod; push_cast; ring)
  have t5 : pymod (limit360 (M + 180.0)
      + 2 * pymod (limit360 (A + 180.0) - limit360 (M + 180.0) + 360) 360
        / 3.0
      - (limit360 (M + 180.0)
        + pymod (limit360 (A + 180.0) - limit360 (M + 180.0) + 360) 360
          / 3.0)) 360 =
      pymod (limit360 (A + 180.0) - limit360 (M + 180.0) + 360) 360 / 3.0 :=
    arc_eq_third _ _ hw47_0 hw47_1 0 (by push_cast; ring)
  have t6 : pymod (A + 180.0
      - (limit360 (M + 180.0)
        + 2 * pymod (limit360 (A + 180.0) - limit360 (M + 180.0) + 360) 360
          / 3.0)) 360 =
      pymod (limit360 (A + 180.0) - limit360 (M + 180.0) + 360) 360 / 3.0 :=
    arc_eq_third _ _ hw47_0 hw47_1
      (⌊(A + 180.0) / 360⌋
        + ⌊(limit360 (A + 180.0) - limit360 (M + 180.0) + 360) / 360⌋ - 1)
      (by unfold limit360 pymod; push_cast; ring)
  have t7 : pymod (limit360 (A + 180.0)
      + pymod (M - limit360 (A + 180.0) + 360) 360 / 3.0 - (A + 180.0)) 360 =
      pymod (M - limit360 (A + 180.0) + 360) 360 / 3.0 :=
    arc_eq_third _ _ hw710_0 hw710_1 (-⌊(A + 180.0) / 360⌋)
      (by unfold limit360 pymod; push_cast; ring)
  have t8 : pymod (limit360 (A + 180.0)
      + 2 * pymod (M - limit360 (A + 180.0) + 360) 360 / 3.0
      - (limit360 (A + 180.0)
        + pymod (M - limit360 (A + 180.0) + 360) 360 / 3.0)) 360 =
      pymod (M - limit360 (A + 180.0) + 360) 360 / 3.0 :=
    arc_eq_third _ _ hw710_0 hw710_1 0 (by push_cast; ring)
  have t9 : pymod (M
      - (limit360 (A + 180.0)
        + 2 * pymod (M - limit360 (A + 180.0) + 360) 360 / 3.0)) 360 =
      pymod (M - limit360 (A + 180.0) + 360) 360 / 3.0 :=
    arc_eq_third _ _ hw710_0 hw710_1
      (⌊(M - limit360 (A + 180.0) + 360) / 360⌋ - 1)
      (by unfold limit360 pymod; push_cast; ring)
  have t10 : pymod (M + pymod (A - M + 360) 360 / 3.0 - M) 360 =
      pymod (A - M + 360) 360 / 3.0 :=
    arc_eq_third _ _ hw101_0 hw101_1 0 (by push_cast; ring)
  have t11 : pymod (M + 2 * pymod (A - M + 360) 360 / 3.0
      - (M + pymod (A - M + 360) 360 / 3.0)) 360 =
      pymod (A - M + 360) 360 / 3.0 :=
    arc_eq_third _ _ hw101_0 hw101_1 0 (by push_cast; ring)
  have t12 : pymod (A - (M + 2 * pymod (A - M + 360) 360 / 3.0)) 360 =
      pymod (A - M + 360) 360 / 3.0 :=
    arc_eq_third _ _ hw101_0 hw101_1 (⌊(A - M + 360) / 360⌋ - 1)
      (by unfold pymod; push_cast; ring)
  rw [t1, t2, t3, t4, t5, t6, t7, t8, t9, t10, t11, t12]
  have e14 : pymod (limit360 (M + 180.0) - A + 360) 360 =
      pymod (pymod (M - A) 360 + 180.0) 360 :=
    pymod_congr (by norm_num) (1 - ⌊(M + 180.0) / 360⌋ + ⌊(M - A) / 360⌋)
      (by unfold limit360 pymod; push_cast; ring)
  have e47 : pymod (limit360 (A + 180.0) - limit360 (M + 180.0) + 360) 360 =
      pymod (-(pymod (M - A) 360)) 360 :=
    pymod_congr (by norm_num)
      (1 - ⌊(A + 180.0) / 360⌋ + ⌊(M + 180.0) / 360⌋ - ⌊(M - A) / 360⌋)
      (by unfold limit360 pymod; push_cast; ring)
  have e710 : pymod (M - limit360 (A + 180.0) + 360) 360 =
      pymod (pymod (M - A) 360 + 180.0) 360 :=
    pymod_congr (by norm_num) (⌊(A + 180.0) / 360⌋ + ⌊(M - A) / 360⌋)
      (by unfold limit360 pymod; push_cast; ring)
  have e101 : pymod (A - M + 360) 360 = pymod (-(pymod (M - A) 360)) 360 :=
    pymod_congr (by norm_num) (1 - ⌊(M - A) / 360⌋)
      (by unfold pymod; push_cast; ring)
  rw [e14, e47, e710, e101]
  have hW0 : 0 ≤ pymod (M - A) 360 := pymod_nonneg _ _ (by norm_num)
  have hW1 : pymod (M - A) 360 < 360 := pymod_lt _ _ (by norm_num)
  by_cases hW : pymod (M - A) 360 = 0
  · have p1 : pymod (pymod (M - A) 360 + 180.0) 360 = 180 :=
      pymod360_eval _ _ 0 (by rw [hW]; push_cast; ring) (by norm_num)
        (by norm_num)
    have p2 : pymod (-(pymod (M - A) 360)) 360 = 0 :=
      pymod360_eval _ _ 0 (by rw [hW]; push_cast; ring) (by norm_num)
        (by norm_num)
    rw [p1, p2]
    norm_num
  · have hWpos : 0 < pymod (M - A) 360 := lt_of_le_of_ne hW0 (Ne.symm hW)
    have h180 : 180 ≤ pymod (M - A) 360 := by
      by_contra hlt
      push_neg at hlt
      exact h (Set.mem_Ioo.mpr ⟨hWpos, hlt⟩)
    have p1 : pymod (pymod (M - A) 360 + 180.0) 360 = pymod (M - A) 360 - 180 :=
      pymod360_eval _ _ 1 (by push_cast; ring) (by linarith) (by linarith)
    have p2 : pymod (-(pymod (M - A) 360)) 360 = 360 - pymod (M - A) 360 :=
      pymod360_eval _ _ (-1) (by push_cast; ring) (by linarith) (by linarith)
    rw [p1, p2]
    ring

/-- C2, amended: calculate_sripati_house_cusps returns exactly 12 cusps
in which, before the common sidereal shift, cusp 1 is the ascendant,
cusp 4 the imum coeli, cusp 7 the descendant and cusp 10 the midheaven;
within each quadrant from cardinal angle X to the next cardinal angle Y
the two intermediate cusps are normalize(X + arc/3) and
normalize(X + 2 arc/3) with arc = (Y - X + 360) mod 360; each returned
cusp is normalize(tropical cusp - ayanamsa); every consecutive forward
arc is non-negative; and the twelve arcs sum to exactly 360 whenever the
forward arc from the ascendant to the midheaven, (MC - Asc + 360) mod
360 under the forward-arc convention, is not strictly between 0 and 180
degrees, that is, whenever the midheaven does not lie in the open
half-circle zodiacally ahead of the ascendant (without that proviso the
sum can be 1080, as the counterexample shows). -/
theorem sripati_cusps_structure (t : Time) (lat lon ayan : ℝ) :
    (calculate_sripati_house_cusps t lat lon ayan).cusps_sid.length = 12
    ∧ (calculate_sripati_house_cusps t lat lon ayan).cusps_sid =
      [limit360 ((calculate_sripati_house_cusps t lat lon
          ayan).primaries.asc_tropical_deg - ayan),
       limit360 (limit360 ((calculate_sripati_house_cusps t lat lon
          ayan).primaries.asc_tropical_deg
         + pymod ((calculate_sripati_house_cusps t lat lon
            ayan).primaries.ic_tropical_deg
           - (calculate_sripati_house_cusps t lat lon
            ayan).primaries.asc_tropical_deg + 360) 360 / 3.0) - ayan),
       limit360 (limit360 ((calculate_sripati_house_cusps t lat lon
          ayan).primaries.asc_tropical_deg
         + 2 * pymod ((calculate_sripati_house_cusps t lat lon
            ayan).primaries.ic_tropical_deg
           - (calculate_sripati_house_cusps t lat lon
            ayan).primaries.asc_tropical_deg + 360) 360 / 3.0) - ayan),
       limit360 ((calculate_sripati_house_cusps t lat lon
          ayan).primaries.ic_tropical_deg - ayan),
       limit360 (limit360 ((calculate_sripati_house_cusps t lat lon
          ayan).primaries.ic_tropical_deg
         + pymod ((calculate_sripati_house_cusps t lat lon
            ayan).primaries.desc_tropical_deg
           - (calculate_sripati_house_cusps t lat lon
            ayan).primaries.ic_tropical_deg + 360) 360 / 3.0) - ayan),
       limit360 (limit360 ((calculate_sripati_house_cusps t lat lon
          ayan).primaries.ic_tropical_deg
         + 2 * pymod ((calculate_sripati_house_cusps t lat lon
            ayan).primaries.desc_tropical_deg
           - (calculate_sripati_house_cusps t lat lon
            ayan).primaries.ic_tropical_deg + 360) 360 / 3.0) - ayan),
       limit360 ((calculate_sripati_house_cusps t lat lon
          ayan).primaries.desc_tropical_deg - ayan),
       limit360 (limit360 ((calculate_sripati_house_cusps t lat lon
          ayan).primaries.desc_tropical_deg
         + pymod ((calculate_sripati_house_cusps t lat lon
            ayan).primaries.mc_tropical_deg
           - (calculate_sripati_house_cusps t lat lon
            ayan).primaries.desc_tropical_deg + 360) 360 / 3.0) - ayan),
       limit360 (limit360 ((calculate_sripati_house_cusps t lat lon
          ayan).primaries.desc_tropical_deg
         + 2 * pymod ((calculate_sripati_house_cusps t lat lon
            ayan).primaries.mc_tropical_deg
           - (calculate_sripati_house_cusps t lat lon
            ayan).primaries.desc_tropical_deg + 360) 360 / 3.0) - ayan),
       limit360 ((calculate_sripati_house_cusps t lat lon
          ayan).primaries.mc_tropical_deg - ayan),
       limit360 (limit360 ((calculate_sripati_house_cusps t lat lon
          ayan).primaries.mc_tropical_deg
         + pymod ((calculate_sripati_house_cusps t lat lon
            ayan).primaries.asc_tropical_deg
           - (calculate_sripati_house_cusps t lat lon
            ayan).primaries.mc_tropical_deg + 360) 360 / 3.0) - ayan),
       limit360 (limit360 ((calculate_sripati_house_cusps t lat lon
          ayan).primaries.mc_tropical_deg
         + 2 * pymod ((calculate_sripati_house_cusps t lat lon
            ayan).primaries.asc_tropical_deg
           - (calculate_sripati_house_cusps t lat lon
            ayan).primaries.mc_tropical_deg + 360) 360 / 3.0) - ayan)]
    ∧ (∀ i : ℕ, 0 ≤ pymod
        ((calculate_sripati_house_cusps t lat lon ayan).cusps_sid.getD
          ((i + 1) % 12) 0
        - (calculate_sripati_house_cusps t lat lon ayan).cusps_sid.getD i 0)
        360)
    ∧ (pymod ((calculate_sripati_house_cusps t lat lon
          ayan).primaries.mc_tropical_deg
        - (calculate_sripati_house_cusps t lat lon
          ayan).primaries.asc_tropical_deg) 360 ∉ Set.Ioo (0 : ℝ) 180 →
      sumForwardArcs (calculate_sripati_house_cusps t lat lon ayan).cusps_sid
        = 360) := by
  refine ⟨rfl, rfl, fun i => pymod_nonneg _ _ (by norm_num), fun h => ?_⟩
  exact sripati_sum_core
    ((calculate_sripati_house_cusps t lat lon ayan).primaries.asc_tropical_deg)
    ((calculate_sripati_house_cusps t lat lon ayan).primaries.mc_tropical_deg)
    ayan h

/-! Closed-form evaluation of the chart angles at local sidereal time
90 degrees (reached at J2000.0 from east longitude 169.53938163) with
the J2000.0 mean obliquity 23.439291111 degrees. -/

theorem radians_zero : radians 0 = 0 := by unfold radians; ring

theorem radians_ninety : radians 90 = π / 2 := by unfold radians; ring

theorem degrees_zero : degrees 0 = 0 := by unfold degrees; ring

theorem degrees_pi : degrees π = 180 := by
  unfold degrees
  field_simp

theorem degrees_pi_div_two : degrees (π / 2) = 90 := by
  unfold degrees
  field_simp
  ring

theorem atan2_zero_pos (x : ℝ) (hx : 0 < x) : atan2 0 x = 0 := by
  unfold atan2
  rw [if_pos hx, zero_div, Real.arctan_zero]

theorem atan2_zero_neg (x : ℝ) (hx : x < 0) : atan2 0 x = π := by
  unfold atan2
  rw [if_neg (by linarith), if_pos hx, if_pos (le_refl (0 : ℝ)), zero_div,
    Real.arctan_zero, zero_add]

theorem atan2_pos_zero (y : ℝ) (hy : 0 < y) : atan2 y 0 = π / 2 := by
  unfold atan2
  rw [if_neg (lt_irrefl (0 : ℝ)), if_neg (lt_irrefl (0 : ℝ)), if_pos hy]

theorem cos_eps_pos : 0 < cos (radians 23.439291111) := by
  apply Real.cos_pos_of_mem_Ioo
  rw [Set.mem_Ioo]
  constructor
  · unfold radians
    nlinarith [Real.pi_pos]
  · unfold radians
    nlinarith [Real.pi_pos]

theorem sin_eps_pos : 0 < sin (radians 23.439291111) := by
  apply Real.sin_pos_of_pos_of_lt_pi
  · unfold radians
    nlinarith [Real.pi_pos]
  · unfold radians
    nlinarith [Real.pi_pos]

theorem cos_lat80_pos : 0 < cos (radians (-80)) := by
  apply Real.cos_pos_of_mem_Ioo
  rw [Set.mem_Ioo]
  constructor
  · unfold radians
    nlinarith [Real.pi_pos]
  · unfold radians
    nlinarith [Real.pi_pos]

/-- At latitude -80, below the antarctic circle for obliquity about
23.44 degrees, the horizon term cos eps + tan lat sin eps is negative:
it equals cos(eps - lat) / cos lat and eps - lat is about 103.44
degrees, past quadrature. -/
theorem asc_arg_neg :
    cos (radians 23.439291111)
      + tan (radians (-80)) * sin (radians 23.439291111) < 0 := by
  have heq : cos (radians 23.439291111)
      + tan (radians (-80)) * sin (radians 23.439291111) =
      cos (radians 23.439291111 - radians (-80)) / cos (radians (-80)) := by
    rw [Real.tan_eq_sin_div_cos, Real.cos_sub]
    field_simp [ne_of_gt cos_lat80_pos]
    ring
  rw [heq]
  apply div_neg_of_neg_of_pos _ cos_lat80_pos
  have harg : radians 23.439291111 - radians (-80) =
      103.439291111 * π / 180 := by
    unfold radians
    ring
  rw [harg]
  apply Real.cos_neg_of_pi_div_two_lt_of_lt
  · nlinarith [Real.pi_pos]
  · nlinarith [Real.pi_pos]

theorem asc_eval_lat0 :
    ascendant_tropical_from_lst_deg 90 0 23.439291111 = 180 := by
  show limit360 (degrees (atan2 (cos (radians 90))
    (-(sin (radians 90) * cos (radians 23.439291111)
      + tan (radians 0) * sin (radians 23.439291111))))) = 180
  rw [radians_ninety, radians_zero, Real.cos_pi_div_two,
    Real.sin_pi_div_two, Real.tan_zero]
  rw [show -(1 * cos (radians 23.439291111)
      + 0 * sin (radians 23.439291111)) =
      -cos (radians 23.439291111) from by ring]
  rw [atan2_zero_neg _ (by linarith [cos_eps_pos])]
  rw [degrees_pi]
  exact limit360_eq_self (by norm_num) (by norm_num)

theorem asc_eval_lat_neg80 :
    ascendant_tropical_from_lst_deg 90 (-80) 23.439291111 = 0 := by
  show limit360 (degrees (atan2 (cos (radians 90))
    (-(sin (radians 90) * cos (radians 23.439291111)
      + tan (radians (-80)) * sin (radians 23.439291111))))) = 0
  rw [radians_ninety, Real.cos_pi_div_two, Real.sin_pi_div_two]
  rw [show -(1 * cos (radians 23.439291111)
      + tan (radians (-80)) * sin (radians 23.439291111)) =
      -(cos (radians 23.439291111)
        + tan (radians (-80)) * sin (radians 23.439291111)) from by ring]
  rw [atan2_zero_pos _ (by linarith [asc_arg_neg])]
  rw [degrees_zero]
  exact limit360_eq_self (by norm_num) (by norm_num)

theorem mc_eval : mc_tropical_from_lst_deg 90 23.439291111 = 90 := by
  show limit360 (degrees (atan2
    (sin (radians 90) * cos (radians 23.439291111)) (cos (radians 90)))) = 90
  rw [radians_ninety, Real.cos_pi_div_two, Real.sin_pi_div_two, one_mul]
  rw [atan2_pos_zero _ cos_eps_pos]
  rw [degrees_pi_div_two]
  exact limit360_eq_self (by norm_num) (by norm_num)

theorem gmst_t2000 : gmst_in_degrees t2000 = 280.46061837 := by
  show pymod (gmstPoly 2451545.0) 360 = 280.46061837
  rw [show gmstPoly 2451545.0 = 280.46061837 from by norm_num [gmstPoly]]
  exact pymod_eq_self _ _ (by norm_num) (by norm_num) (by norm_num)

theorem lst_cex :
    (local_sidereal_time_degrees t2000 169.53938163).lst_deg = 90 := by
  show pymod (gmst_in_degrees t2000 / 15.0 + 169.53938163 / 15.0) 24.0
    * 15.0 = 90
  rw [gmst_t2000]
  rw [show (280.46061837 : ℝ) / 15.0 + 169.53938163 / 15.0 = 30 from
    by norm_num]
  rw [show pymod (30 : ℝ) 24.0 = 6 from by
    rw [pymod_congr (by norm_num) 1
      (by push_cast; norm_num : (30 : ℝ) - 6 = 24.0 * ((1 : ℤ) : ℝ))]
    exact pymod_eq_self _ _ (by norm_num) (by norm_num) (by norm_num)]
  norm_num

theorem prim_eps (lat : ℝ) :
    (calculate_lagna_and_primaries t2000 lat 169.53938163 0).eps_deg =
      23.439291111 := by
  show 23.439291111 - 0.0130041666667 * ((2451545.0 - 2451545.0) / 36525.0)
    - 0.0000001639 * ((2451545.0 - 2451545.0) / 36525.0) ^ 2
    + 0.0000005036 * ((2451545.0 - 2451545.0) / 36525.0) ^ 3 = 23.439291111
  norm_num

theorem prim_asc_0 :
    (calculate_sripati_house_cusps t2000 0 169.53938163
      0).primaries.asc_tropical_deg = 180 := by
  show ascendant_tropical_from_lst_deg
    (local_sidereal_time_degrees t2000 169.53938163).lst_deg 0
    ((calculate_lagna_and_primaries t2000 0 169.53938163 0).eps_deg) = 180
  rw [lst_cex, prim_eps 0]
  exact asc_eval_lat0

theorem prim_asc_neg80 :
    (calculate_sripati_house_cusps t2000 (-80) 169.53938163
      0).primaries.asc_tropical_deg = 0 := by
  show ascendant_tropical_from_lst_deg
    (local_sidereal_time_degrees t2000 169.53938163).lst_deg (-80)
    ((calculate_lagna_and_primaries t2000 (-80) 169.53938163 0).eps_deg) = 0
  rw [lst_cex, prim_eps (-80)]
  exact asc_eval_lat_neg80

theorem prim_mc (lat : ℝ) :
    (calculate_sripati_house_cusps t2000 lat 169.53938163
      0).primaries.mc_tropical_deg = 90 := by
  show mc_tropical_from_lst_deg
    (local_sidereal_time_degrees t2000 169.53938163).lst_deg
    ((calculate_lagna_and_primaries t2000 lat 169.53938163 0).eps_deg) = 90
  rw [lst_cex, prim_eps lat]
  exact mc_eval

theorem prim_desc_0 :
    (calculate_sripati_house_cusps t2000 0 169.53938163
      0).primaries.desc_tropical_deg = 0 := by
  show limit360 ((calculate_sripati_house_cusps t2000 0 169.53938163
    0).primaries.asc_tropical_deg + 180.0) = 0
  rw [prim_asc_0]
  exact pymod360_eval _ _ 1 (by push_cast; norm_num) (by norm_num)
    (by norm_num)

theorem prim_desc_neg80 :
    (calculate_sripati_house_cusps t2000 (-80) 169.53938163
      0).primaries.desc_tropical_deg = 180 := by
  show limit360 ((calculate_sripati_house_cusps t2000 (-80) 169.53938163
    0).primaries.asc_tropical_deg + 180.0) = 180
  rw [prim_asc_neg80]
  exact pymod360_eval _ _ 0 (by push_cast; norm_num) (by norm_num)
    (by norm_num)

theorem prim_ic (lat : ℝ) :
    (calculate_sripati_house_cusps t2000 lat 169.53938163
      0).primaries.ic_tropical_deg = 270 := by
  show limit360 ((calculate_sripati_house_cusps t2000 lat 169.53938163
    0).primaries.mc_tropical_deg + 180.0) = 270
  rw [prim_mc lat]
  exact pymod360_eval _ _ 0 (by push_cast; norm_num) (by norm_num)
    (by norm_num)

/-- The cusp list of calculate_sripati_house_cusps written out through
the primaries it returns (the definitional unfolding of the source). -/
theorem sripati_cusps_explicit (t : Time) (lat lon ayan : ℝ) :
    (calculate_sripati_house_cusps t lat lon ayan).cusps_sid =
      [limit360 ((calculate_sripati_house_cusps t lat lon
          ayan).primaries.asc_tropical_deg - ayan),
       limit360 (limit360 ((calculate_sripati_house_cusps t lat lon
          ayan).primaries.asc_tropical_deg
         + pymod ((calculate_sripati_house_cusps t lat lon
            ayan).primaries.ic_tropical_deg
           - (calculate_sripati_house_cusps t lat lon
            ayan).primaries.asc_tropical_deg + 360) 360 / 3.0) - ayan),
       limit360 (limit360 ((calculate_sripati_house_cusps t lat lon
          ayan).primaries.asc_tropical_deg
         + 2 * pymod ((calculate_sripati_house_cusps t lat lon
            ayan).primaries.ic_tropical_deg
           - (calculate_sripati_house_cusps t lat lon
            ayan).primaries.asc_tropical_deg + 360) 360 / 3.0) - ayan),
       limit360 ((calculate_sripati_house_cusps t lat lon
          ayan).primaries.ic_tropical_deg - ayan),
       limit360 (limit360 ((calculate_sripati_house_cusps t lat lon
          ayan).primaries.ic_tropical_deg
         + pymod ((calculate_sripati_house_cusps t lat lon
            ayan).primaries.desc_tropical_deg
           - (calculate_sripati_house_cusps t lat lon
            ayan).primaries.ic_tropical_deg + 360) 360 / 3.0) - ayan),
       limit360 (limit360 ((calculate_sripati_house_cusps t lat lon
          ayan).primaries.ic_tropical_deg
         + 2 * pymod ((calculate_sripati_house_cusps t lat lon
            ayan).primaries.desc_tropical_deg
           - (calculate_sripati_house_cusps t lat lon
            ayan).primaries.ic_tropical_deg + 360) 360 / 3.0) - ayan),
       limit360 ((calculate_sripati_house_cusps t lat lon
          ayan).primaries.desc_tropical_deg - ayan),
       limit360 (limit360 ((calculate_sripati_house_cusps t lat lon
          ayan).primaries.desc_tropical_deg
         + pymod ((calculate_sripati_house_cusps t lat lon
            ayan).primaries.mc_tropical_deg
           - (calculate_sripati_house_cusps t lat lon
            ayan).primaries.desc_tropical_deg + 360) 360 / 3.0) - ayan),
       limit360 (limit360 ((calculate_sripati_house_cusps t lat lon
          ayan).primaries.desc_tropical_deg
         + 2 * pymod ((calculate_sripati_house_cusps t lat lon
            ayan).primaries.mc_tropical_deg
           - (calculate_sripati_house_cusps t lat lon
            ayan).primaries.desc_tropical_deg + 360) 360 / 3.0) - ayan),
       limit360 ((calculate_sripati_house_cusps t lat lon
          ayan).primaries.mc_tropical_deg - ayan),
       limit360 (limit360 ((calculate_sripati_house_cusps t lat lon
          ayan).primaries.mc_tropical_deg
         + pymod ((calculate_sripati_house_cusps t lat lon
            ayan).primaries.asc_tropical_deg
           - (calculate_sripati_house_cusps t lat lon
            ayan).primaries.mc_tropical_deg + 360) 360 / 3.0) - ayan),
       limit360 (limit360 ((calculate_sripati_house_cusps t lat lon
          ayan).primaries.mc_tropical_deg
         + 2 * pymod ((calculate_sripati_house_cusps t lat lon
            ayan).primaries.asc_tropical_deg
           - (calculate_sripati_house_cusps t lat lon
            ayan).primaries.mc_tropical_deg + 360) 360 / 3.0) - ayan)] :=
  rfl

/-- At J2000.0, latitude -80, longitude 169.53938163 and ayanamsa 0 the
twelve sidereal cusps land on the four values 0, 90, 180, 270 repeated
three times around the circle. -/
theorem cex_cusps :
    (calculate_sripati_house_cusps t2000 (-80) 169.53938163 0).cusps_sid =
      [0, 90, 180, 270, 0, 90, 180, 270, 0, 90, 180, 270] := by
  rw [sripati_cusps_explicit, prim_asc_neg80, prim_ic (-80),
    prim_desc_neg80, prim_mc (-80)]
  norm_num [limit360, pymod]

/-- C2, counterexample to the claim as stated: at J2000.0 with latitude
-80 (strictly between -90 and 90, all four tropical angles defined),
longitude 169.53938163 east and ayanamsa 0, the twelve consecutive
forward arcs of the returned cusps sum to 1080 degrees, not 360: the
computed ascendant falls west of the meridian, so each quadrant arc is
270 degrees and the cusps wind three times around the zodiac. -/
theorem sripati_arcs_sum_counterexample :
    sumForwardArcs
      (calculate_sripati_house_cusps t2000 (-80) 169.53938163 0).cusps_sid
      = 1080
    ∧ sumForwardArcs
      (calculate_sripati_house_cusps t2000 (-80) 169.53938163 0).cusps_sid
      ≠ 360 := by
  have h : sumForwardArcs
      (calculate_sripati_house_cusps t2000 (-80) 169.53938163 0).cusps_sid
      = 1080 := by
    rw [cex_cusps, sumForwardArcs_twelve]
    norm_num [pymod]
  exact ⟨h, by rw [h]; norm_num⟩

theorem sripati_cusps_structure_witness :
    sumForwardArcs
      (calculate_sripati_house_cusps t2000 0 169.53938163 0).cusps_sid
      = 360 :=
  (sripati_cusps_structure t2000 0 169.53938163 0).2.2.2 (by
    rw [prim_mc 0, prim_asc_0]
    rw [show pymod ((90 : ℝ) - 180) 360 = 270 from
      pymod360_eval _ _ (-1) (by push_cast; norm_num) (by norm_num)
        (by norm_num)]
    norm_num [Set.mem_Ioo])

end Astro
